import Mathlib

/-!
Shallow embedding of the MarkPigeon conversion pipeline
(`src/core/parser.py`, `src/core/renderer.py`, `src/core/packer.py`,
`src/core/converter.py`) and proofs about it.

Modelling conventions:
* Paths are POSIX-style strings; the filesystem is an explicit state value
  (`FS`) threaded through every operation that the Python code performs on
  disk.  Write failures (out of disk space, permissions, ...) are injected
  through `FS.failWrites`, which maps a path to the exception message the
  write raises.
* Machine-level byte strings are `List Nat` (each element a byte value).
* The Markdown-to-HTML transform (`markdown_it`), the `<img>`-tag scan and
  the `<img src>` rewrite (`BeautifulSoup`) are third-party libraries, not
  code of this repository; they enter the embedding as explicit function
  parameters (`mdRender`, `findImgTags`, `upd`), exactly at the points where
  the source calls into them.
* `PIL` raster drawing is modelled by the opaque payload `FileData.png w h`:
  the drawing commands do not influence anything the source code later
  inspects, only the saved file's existence, name and dimensions do.
-/

namespace MarkPigeon

/-! ## Byte and string utilities -/

/-- UTF-8 encoding of one character (standard 1-4 byte encoding),
modelling Python's `str.encode()`. -/
def charUtf8 (c : Char) : List Nat :=
  let n := c.toNat
  if n < 128 then [n]
  else if n < 2048 then [192 + n / 64, 128 + n % 64]
  else if n < 65536 then [224 + n / 4096, 128 + (n / 64) % 64, 128 + n % 64]
  else [240 + n / 262144, 128 + (n / 4096) % 64, 128 + (n / 64) % 64, 128 + n % 64]

/-- UTF-8 encoding of a string, modelling Python's `str.encode()`. -/
def utf8Bytes (s : String) : List Nat :=
  (s.toList.map charUtf8).flatten

/-- Value of one hexadecimal digit, `none` if the character is not one. -/
def hexVal (c : Char) : Option Nat :=
  if '0' ≤ c ∧ c ≤ '9' then some (c.toNat - '0'.toNat)
  else if 'a' ≤ c ∧ c ≤ 'f' then some (c.toNat - 'a'.toNat + 10)
  else if 'A' ≤ c ∧ c ≤ 'F' then some (c.toNat - 'A'.toNat + 10)
  else none

/-- Percent-decoding core of `urllib.parse.unquote`: each `%XX` escape with
two hex digits becomes the character with that byte value, malformed escapes
pass through.  (Python reassembles consecutive escaped bytes through UTF-8;
for the ASCII escapes relevant to scheme classification the two agree.) -/
def unquoteChars : List Char → List Char
  | '%' :: a :: b :: rest =>
    match hexVal a, hexVal b with
    | some x, some y => Char.ofNat (16 * x + y) :: unquoteChars rest
    | _, _ => '%' :: unquoteChars (a :: b :: rest)
  | c :: rest => c :: unquoteChars rest
  | [] => []

/-- Model of `urllib.parse.unquote` on a string. -/
def unquote (s : String) : String :=
  String.mk (unquoteChars s.toList)

/-- Characters allowed inside a URL scheme (`urllib.parse.scheme_chars`). -/
def schemeChar (c : Char) : Bool :=
  c.isAlphanum || c == '+' || c == '-' || c == '.'

/-- Scheme extraction of `urllib.parse.urlparse`: the text before the first
`:`, provided it is non-empty, starts with an ASCII letter and consists of
scheme characters; lower-cased.  Otherwise the empty string. -/
def urlScheme (url : String) : String :=
  let cs := url.toList
  match cs.findIdx? (fun c => c == ':') with
  | none => ""
  | some i =>
    if 0 < i ∧ (cs.headD ' ').isAlpha ∧ (cs.take i).all schemeChar then
      String.mk ((cs.take i).map Char.toLower)
    else ""

/-- ASCII lower-casing, modelling Python `str.lower()` on ASCII input
(the only input the source applies it to: file extensions, URL schemes). -/
def asciiLower (s : String) : String :=
  String.mk (s.toList.map Char.toLower)

/-- Tests whether `pre` is a prefix of `s` (kernel-reducible `String.startsWith`). -/
def strStartsWith (s pre : String) : Bool :=
  pre.toList.isPrefixOf s.toList

/-- Split a character list at every `/`. -/
def splitSlash : List Char → List Char → List String
  | acc, [] => [String.mk acc.reverse]
  | acc, c :: rest =>
    if c = '/' then String.mk acc.reverse :: splitSlash [] rest
    else splitSlash (c :: acc) rest

/-- Join strings with a separator (kernel-reducible `String.intercalate`). -/
def joinSep (sep : String) : List String → String
  | [] => ""
  | [x] => x
  | x :: y :: rest => x ++ sep ++ joinSep sep (y :: rest)

/-! ## Path helpers (POSIX-style `pathlib.PurePath` semantics) -/

/-- Path components: split on `/`, dropping empty and `.` components
(as `pathlib` does when parsing a path string). -/
def pathComponents (p : String) : List String :=
  (splitSlash [] p.toList).filter (fun s => ¬ s = "" ∧ ¬ s = ".")

/-- Model of `pathlib.PurePath.name`: the final path component. -/
def pathName (p : String) : String :=
  (pathComponents p).getLastD ""

/-- Index of the last `.` in a list of characters, if any
(`str.rfind` restricted to `.`). -/
def lastDotIdx : List Char → Option Nat
  | [] => none
  | c :: rest =>
    match lastDotIdx rest with
    | some j => some (j + 1)
    | none => if c == '.' then some 0 else none

/-- Model of `pathlib.PurePath.suffix` of a final component `name`: `name[i:]` where
`i` is the index of the last dot, provided `0 < i < len(name) - 1`,
else the empty string. -/
def pySuffix (name : String) : String :=
  let cs := name.toList
  match lastDotIdx cs with
  | none => ""
  | some i => if 0 < i ∧ i < cs.length - 1 then String.mk (cs.drop i) else ""

/-- Model of `pathlib.PurePath.stem` of a final component `name`: `name[:i]` under the
same condition as `pySuffix`, else all of `name`. -/
def pyStem (name : String) : String :=
  let cs := name.toList
  match lastDotIdx cs with
  | none => name
  | some i => if 0 < i ∧ i < cs.length - 1 then String.mk (cs.take i) else name

/-- Model of `pathlib.PurePath.is_absolute` for POSIX paths. -/
def isAbsolutePath (p : String) : Bool :=
  strStartsWith p "/"

/-- Model of the `pathlib` `/` operator: the right side wins when absolute. -/
def pathJoin (a b : String) : String :=
  if isAbsolutePath b then b
  else if a = "" then b
  else a ++ "/" ++ b

/-- Model of `pathlib.PurePath.parent`: the path without its final component. -/
def pathParent (p : String) : String :=
  let front := (pathComponents p).dropLast
  if isAbsolutePath p then "/" ++ joinSep "/" front
  else if front = [] then "." else joinSep "/" front

/-- Lexical part of `pathlib.Path.resolve`: collapse `..` components.
(Symlink and working-directory resolution are outside the model.) -/
def resolveComponents : List String → List String → List String
  | acc, [] => acc.reverse
  | acc, c :: rest =>
    if c = ".." then resolveComponents (acc.drop 1) rest
    else resolveComponents (c :: acc) rest

/-- Model of `pathlib.Path.resolve` on an already-joined path. -/
def pyResolve (p : String) : String :=
  let comps := resolveComponents [] (pathComponents p)
  if isAbsolutePath p then "/" ++ joinSep "/" comps
  else joinSep "/" comps

/-! ## Filesystem model -/

/-- Data stored inside a ZIP archive entry.  `nestedZip` stands for an
archive copied into another archive; its inner entries are outside the
model (the pipeline never produces one). -/
inductive Payload where
  | text (s : String)
  | bytes (bs : List Nat)
  | png (w h : Nat)
  | nestedZip
deriving DecidableEq, Repr

/-- Content of one file in the modelled filesystem.  `text`/`bytes` carry
their payload; `png w h` stands for a rasterised PIL image of the given
dimensions (its byte serialisation is outside the model); `zip` is a ZIP
archive as a list of (archive name, stored data) entries. -/
inductive FileData where
  | text (s : String)
  | bytes (bs : List Nat)
  | png (w h : Nat)
  | zip (entries : List (String × Payload))
deriving DecidableEq, Repr

/-- The payload recorded when a file's content is copied into an archive. -/
def FileData.toPayload : FileData → Payload
  | .text s => .text s
  | .bytes bs => .bytes bs
  | .png w h => .png w h
  | .zip _ => .nestedZip

/-- Filesystem state: a path→content map, the set of directories created,
and injected write faults (path → exception message) standing for the
environment-dependent I/O errors Python can raise. -/
structure FS where
  files : List (String × FileData) := []
  dirs : List String := []
  failWrites : List (String × String) := []
deriving DecidableEq, Repr

def fsLookup (fs : FS) (p : String) : Option FileData :=
  (fs.files.find? (fun e => e.1 == p)).map Prod.snd

/-- Model of `Path.exists() and Path.is_file()` (entries of `FS.files` are files). -/
def fsFileExists (fs : FS) (p : String) : Bool :=
  (fsLookup fs p).isSome

/-- Model of `Path.exists()` for a directory: created explicitly or implied by a
file living beneath it. -/
def fsDirExists (fs : FS) (p : String) : Bool :=
  fs.dirs.contains p || fs.files.any (fun e => strStartsWith e.1 (p ++ "/"))

/-- Model of `Path.mkdir(parents=True, exist_ok=True)`. -/
def fsMkdir (fs : FS) (p : String) : FS :=
  if fs.dirs.contains p then fs else { fs with dirs := p :: fs.dirs }

/-- Write a file, replacing any previous content; raises the injected
exception message when the path is in `failWrites`. -/
def fsWrite (fs : FS) (p : String) (d : FileData) : Except String FS :=
  match fs.failWrites.find? (fun e => e.1 == p) with
  | some e => .error e.2
  | none => .ok { fs with files := (p, d) :: fs.files.filter (fun e => !(e.1 == p)) }

/-- Bytes of a stored payload as `Path.read_bytes` returns them; the byte
serialisations of `png`/`zip` payloads are outside the model, so reading
them is treated as a read failure. -/
def FileData.asBytes : FileData → Option (List Nat)
  | .text s => some (utf8Bytes s)
  | .bytes bs => some bs
  | _ => none

/-- Model of `Path.read_bytes`: `none` when the read raises. -/
def fsReadBytes (fs : FS) (p : String) : Option (List Nat) :=
  (fsLookup fs p).bind FileData.asBytes

/-- Model of `Path.read_text(encoding="utf-8")`: `none` when the read raises
(missing file or undecodable payload). -/
def fsReadText (fs : FS) (p : String) : Option String :=
  match fsLookup fs p with
  | some (.text s) => some s
  | _ => none

/-- Model of `shutil.copy2(src, dst)`. -/
def shutil_copy2 (fs : FS) (src dst : String) : Except String FS :=
  match fsLookup fs src with
  | none => .error ("No such file or directory: " ++ src)
  | some d => fsWrite fs dst d

/-- Files strictly beneath a directory, in store order
(`Path.rglob("*")` restricted to regular files). -/
def fsFilesUnder (fs : FS) (d : String) : List (String × FileData) :=
  fs.files.filter (fun e => strStartsWith e.1 (d ++ "/"))

/-- Path relative to a directory it lies under (`Path.relative_to`). -/
def relPathTo (d p : String) : String :=
  String.mk (p.toList.drop (d.length + 1))

/-! ## MD5 (`hashlib.md5`), RFC 1321 -/

/-- Truncation to 32 bits. -/
def w32 (n : Nat) : Nat := n % 4294967296

/-- The 32-bit left rotation (`x` assumed `< 2^32`). -/
def rotl32 (x n : Nat) : Nat :=
  w32 (x <<< n) ||| (x >>> (32 - n))

/-- MD5 sine-table constants `K[i] = floor(2^32 * |sin(i+1)|)`. -/
def md5K : List Nat :=
  [3614090360, 3905402710, 606105819, 3250441966, 4118548399, 1200080426,
   2821735955, 4249261313, 1770035416, 2336552879, 4294925233, 2304563134,
   1804603682, 4254626195, 2792965006, 1236535329, 4129170786, 3225465664,
   643717713, 3921069994, 3593408605, 38016083, 3634488961, 3889429448,
   568446438, 3275163606, 4107603335, 1163531501, 2850285829, 4243563512,
   1735328473, 2368359562, 4294588738, 2272392833, 1839030562, 4259657740,
   2763975236, 1272893353, 4139469664, 3200236656, 681279174, 3936430074,
   3572445317, 76029189, 3654602809, 3873151461, 530742520, 3299628645,
   4096336452, 1126891415, 2878612391, 4237533241, 1700485571, 2399980690,
   4293915773, 2240044497, 1873313359, 4264355552, 2734768916, 1309151649,
   4149444226, 3174756917, 718787259, 3951481745]

/-- MD5 per-round left-rotation amounts. -/
def md5S : List Nat :=
  [7, 12, 17, 22, 7, 12, 17, 22, 7, 12, 17, 22, 7, 12, 17, 22,
   5, 9, 14, 20, 5, 9, 14, 20, 5, 9, 14, 20, 5, 9, 14, 20,
   4, 11, 16, 23, 4, 11, 16, 23, 4, 11, 16, 23, 4, 11, 16, 23,
   6, 10, 15, 21, 6, 10, 15, 21, 6, 10, 15, 21, 6, 10, 15, 21]

/-- MD5 round function `F/G/H/I` selected by the round index. -/
def md5F (i b c d : Nat) : Nat :=
  if i < 16 then (b &&& c) ||| ((4294967295 ^^^ b) &&& d)
  else if i < 32 then (d &&& b) ||| ((4294967295 ^^^ d) &&& c)
  else if i < 48 then b ^^^ c ^^^ d
  else c ^^^ (b ||| (4294967295 ^^^ d))

/-- MD5 message-word index for each round. -/
def md5G (i : Nat) : Nat :=
  if i < 16 then i
  else if i < 32 then (5 * i + 1) % 16
  else if i < 48 then (3 * i + 5) % 16
  else (7 * i) % 16

/-- One MD5 round on state `(a, b, c, d)` with message words `M`. -/
def md5Round (M : List Nat) (st : Nat × Nat × Nat × Nat) (i : Nat) :
    Nat × Nat × Nat × Nat :=
  let (a, b, c, d) := st
  let f := w32 (md5F i b c d + a + md5K.getD i 0 + M.getD (md5G i) 0)
  (d, w32 (b + rotl32 f (md5S.getD i 0)), b, c)

/-- Process one 16-word chunk. -/
def md5ProcessChunk (st : Nat × Nat × Nat × Nat) (M : List Nat) :
    Nat × Nat × Nat × Nat :=
  let (a, b, c, d) := (List.range 64).foldl (md5Round M) st
  (w32 (st.1 + a), w32 (st.2.1 + b), w32 (st.2.2.1 + c), w32 (st.2.2.2 + d))

/-- The low `len` bytes of `n`, little-endian. -/
def leBytes : Nat → Nat → List Nat
  | 0, _ => []
  | k + 1, n => n % 256 :: leBytes k (n / 256)

/-- MD5 padding: `0x80`, zeros to 56 mod 64, 8-byte little-endian bit length. -/
def md5Pad (msg : List Nat) : List Nat :=
  let ml := msg.length
  msg ++ 128 :: List.replicate ((120 - (ml + 1) % 64) % 64) 0 ++ leBytes 8 (ml * 8)

def chunks64Aux : Nat → List Nat → List (List Nat)
  | 0, _ => []
  | n + 1, bs => bs.take 64 :: chunks64Aux n (bs.drop 64)

/-- Split into 64-byte chunks. -/
def chunks64 (bs : List Nat) : List (List Nat) :=
  chunks64Aux ((bs.length + 63) / 64) bs

/-- Little-endian 32-bit word from the first four bytes. -/
def leWord (bs : List Nat) : Nat :=
  bs.getD 0 0 + 256 * bs.getD 1 0 + 65536 * bs.getD 2 0 + 16777216 * bs.getD 3 0

/-- The sixteen 32-bit words of a 64-byte chunk. -/
def chunkWords (chunk : List Nat) : List Nat :=
  (List.range 16).map (fun j => leWord (chunk.drop (4 * j)))

/-- MD5 digest (16 bytes). -/
def md5Bytes (msg : List Nat) : List Nat :=
  let st :=
    (chunks64 (md5Pad msg)).foldl
      (fun st ch => md5ProcessChunk st (chunkWords ch))
      (1732584193, 4023233417, 2562383102, 271733878)
  leBytes 4 st.1 ++ leBytes 4 st.2.1 ++ leBytes 4 st.2.2.1 ++ leBytes 4 st.2.2.2

def hexDigit (n : Nat) : Char :=
  if n < 10 then Char.ofNat (48 + n) else Char.ofNat (87 + n)

def byteHex (b : Nat) : List Char :=
  [hexDigit (b / 16), hexDigit (b % 16)]

/-- Model of `hashlib.md5(msg).hexdigest()`. -/
def md5hex (msg : List Nat) : String :=
  String.mk ((md5Bytes msg).map byteHex).flatten

/-! ## Parser (`src/core/parser.py`) -/

/-- Structure `ImageInfo` (parser.py lines 20-27). -/
structure ImageInfo where
  original_src : String
  local_path : Option String
  is_local : Bool
  exists' : Bool  -- `exists` in the source; renamed, `exists` is a Lean keyword
  alt_text : String := ""
deriving DecidableEq, Repr

/-- Structure `ParseResult` (parser.py lines 30-37). -/
structure ParseResult where
  html : String
  images : List ImageInfo := []
  local_images : List ImageInfo := []
  warnings : List String := []
  source_file : Option String := none
deriving DecidableEq, Repr

namespace MarkdownParser

/-- Model of `MarkdownParser._analyze_image_src` (parser.py lines 153-208). -/
def analyze_image_src (fs : FS) (src alt : String) (source_file : Option String) :
    ImageInfo :=
  let decoded_src := unquote src
  let scheme := urlScheme decoded_src
  if scheme = "http" ∨ scheme = "https" ∨ scheme = "data" then
    { original_src := src, local_path := none, is_local := false,
      exists' := false, alt_text := alt }
  else
    let local_src :=
      if strStartsWith decoded_src "file://" then
        let s := decoded_src.toList.drop 7
        if 2 < s.length ∧ s.getD 0 ' ' = '/' ∧ s.getD 2 ' ' = ':' then
          String.mk (s.drop 1)
        else String.mk s
      else decoded_src
    let local_path :=
      if ¬ isAbsolutePath local_src ∧ source_file.isSome then
        pyResolve (pathJoin (pathParent (source_file.getD "")) local_src)
      else local_src
    let ex := fsFileExists fs local_path
    { original_src := src
      local_path := if ex ∨ isAbsolutePath local_path then some local_path else none
      is_local := true
      exists' := ex
      alt_text := alt }

/-- Model of `MarkdownParser._extract_images` (parser.py lines 123-151): the `<img>`
tags BeautifulSoup finds in the HTML are passed in as `(src, alt)` pairs;
tags with an empty `src` are skipped. -/
def extract_images (fs : FS) (tags : List (String × String))
    (source_file : Option String) : List ImageInfo :=
  tags.foldr
    (fun t rest =>
      if t.1 = "" then rest else analyze_image_src fs t.1 t.2 source_file :: rest)
    []

/-- Model of `MarkdownParser.parse` (parser.py lines 55-89).  `mdRender` is the
markdown-it transform (an exception modelled as `.error` with the
exception text), `findImgTags` the BeautifulSoup `<img>` scan applied to
the produced HTML. -/
def parse (fs : FS) (mdRender : String → Except String String)
    (findImgTags : String → List (String × String))
    (content : String) (source_file : Option String) : ParseResult :=
  match mdRender content with
  | .error e =>
    { html := "", warnings := ["Markdown parsing error: " ++ e],
      source_file := source_file }
  | .ok h =>
    let images := extract_images fs (findImgTags h) source_file
    let local_images := images.filter (fun i => i.is_local)
    let warnings := (local_images.filter (fun i => !i.exists')).map
        (fun i => "Image not found: " ++ i.original_src)
    { html := h, images := images, local_images := local_images,
      warnings := warnings, source_file := source_file }

/-- Model of `MarkdownParser.parse_file` (parser.py lines 91-121).  (The Python
read-failure message interpolates the exception object; the model uses the
path as the exception text.) -/
def parse_file (fs : FS) (mdRender : String → Except String String)
    (findImgTags : String → List (String × String))
    (file_path : String) : ParseResult :=
  if ¬ fsFileExists fs file_path then
    { html := "", warnings := ["File not found: " ++ file_path],
      source_file := some file_path }
  else
    match fsReadText fs file_path with
    | none =>
      { html := "", warnings := ["Failed to read file: " ++ file_path],
        source_file := some file_path }
    | some content => parse fs mdRender findImgTags content (some file_path)

end MarkdownParser

/-! ## Renderer (`src/core/renderer.py`) -/

/-- Structure `RenderResult` (renderer.py lines 20-29). -/
structure RenderResult where
  html : String
  output_file : Option String := none
  assets_dir : Option String := none
  copied_images : List String := []
  warnings : List String := []
  success : Bool := true
deriving DecidableEq, Repr

namespace HtmlRenderer

/-- Lookup in the per-render used-filename table (a Python `dict`). -/
def usedLookup (used : List (String × Nat)) (k : String) : Option Nat :=
  (used.find? (fun e => e.1 == k)).map Prod.snd

/-- Assignment in the used-filename table: update in place, else append
(Python `dict` insertion-order semantics). -/
def usedSet (used : List (String × Nat)) (k : String) (v : Nat) :
    List (String × Nat) :=
  if (used.find? (fun e => e.1 == k)).isSome then
    used.map (fun e => if e.1 == k then (k, v) else e)
  else used ++ [(k, v)]

/-- Python `f\x7bn:04d\x7d`: decimal, left-padded with zeros to width 4. -/
def pad4 (n : Nat) : String :=
  let s := toString n
  String.mk (List.replicate (4 - s.length) '0') ++ s

/-- Model of `HtmlRenderer._get_unique_filename` (renderer.py lines 352-385),
returning the chosen name and the updated used-name table. -/
def get_unique_filename (fs : FS) (filename : String) (source_path : Option String)
    (used_names : List (String × Nat)) : String × List (String × Nat) :=
  match usedLookup used_names filename with
  | none => (filename, usedSet used_names filename 1)
  | some n =>
    let stem := pyStem filename
    let suffix := pySuffix filename
    let file_hash :=
      match source_path with
      | some p =>
        match fsReadBytes fs p with
        | some bs => String.mk ((md5hex bs).toList.take 8)
        | none => String.mk ((md5hex (utf8Bytes p)).toList.take 8)
      | none => pad4 n
    (stem ++ "_" ++ file_hash ++ suffix, usedSet used_names filename (n + 1))

/-- Outcome of processing one image.  The Python methods mutate a shared
`result` object and the `used_names` dict in place and return the new
relative path; the model returns every mutation explicitly. -/
structure ImageStep where
  fs : FS
  used_names : List (String × Nat)
  new_path : Option String
  warnings : List String
  copied_images : List String
deriving Repr

/-- Model of `HtmlRenderer._copy_image` (renderer.py lines 273-294). -/
def copy_image (fs : FS) (source_path assets_dir assets_dir_name : String)
    (used_names : List (String × Nat)) : ImageStep :=
  let filename := pathName source_path
  let gu := get_unique_filename fs filename (some source_path) used_names
  let target_filename := gu.1
  let used' := gu.2
  let target_path := assets_dir ++ "/" ++ target_filename
  match shutil_copy2 fs source_path target_path with
  | .ok fs' =>
    { fs := fs', used_names := used'
      new_path := some ("./" ++ assets_dir_name ++ "/" ++ target_filename)
      warnings := [], copied_images := [target_path] }
  | .error e =>
    { fs := fs, used_names := used', new_path := none
      warnings := ["Failed to copy image " ++ source_path ++ ": " ++ e]
      copied_images := [] }

/-- The placeholder file stem: `Path(original_src).stem or "missing"`
(renderer.py line 337). -/
def placeholderStem (original_src : String) : String :=
  let s := pyStem (pathName original_src)
  if s = "" then "missing" else s

/-- Model of `HtmlRenderer._generate_placeholder` (renderer.py lines 296-350).  The
PIL drawing commands (400×300 light-gray canvas, border, diagonal cross,
caption text) are modelled by the opaque payload `FileData.png 400 300`;
`img.save(target_path, "PNG")` is the write that can raise. -/
def generate_placeholder (fs : FS) (img_info : ImageInfo)
    (assets_dir assets_dir_name : String) (used_names : List (String × Nat)) :
    ImageStep :=
  let placeholder_name := "placeholder_" ++ placeholderStem img_info.original_src ++ ".png"
  let gu := get_unique_filename fs placeholder_name none used_names
  let target_filename := gu.1
  let used' := gu.2
  let target_path := assets_dir ++ "/" ++ target_filename
  match fsWrite fs target_path (.png 400 300) with
  | .ok fs' =>
    { fs := fs', used_names := used'
      new_path := some ("./" ++ assets_dir_name ++ "/" ++ target_filename)
      warnings := [], copied_images := [target_path] }
  | .error e =>
    { fs := fs, used_names := used', new_path := none
      warnings := ["Failed to generate placeholder: " ++ e]
      copied_images := [] }

/-- Model of `HtmlRenderer._process_image` (renderer.py lines 241-271). -/
def process_image (fs : FS) (img_info : ImageInfo)
    (assets_dir assets_dir_name : String) (used_names : List (String × Nat)) :
    ImageStep :=
  match img_info.local_path with
  | some p =>
    if img_info.exists' then copy_image fs p assets_dir assets_dir_name used_names
    else generate_placeholder fs img_info assets_dir assets_dir_name used_names
  | none => generate_placeholder fs img_info assets_dir assets_dir_name used_names

/-- Python `dict` assignment for the path mapping: replace in place when
the key is present, else append. -/
def dictInsert (m : List (String × String)) (k v : String) :
    List (String × String) :=
  if (m.find? (fun e => e.1 == k)).isSome then
    m.map (fun e => if e.1 == k then (k, v) else e)
  else m ++ [(k, v)]

/-- State after the image loop of `render`. -/
structure AssetsOutcome where
  fs : FS
  mapping : List (String × String)
  warnings : List String
  copied_images : List String
deriving Repr

/-- The image loop of `render` (renderer.py lines 199-206). -/
def process_images (fs : FS) (imgs : List ImageInfo)
    (assets_dir assets_dir_name : String) (used_names : List (String × Nat))
    (mapping : List (String × String)) (warnings copied : List String) :
    AssetsOutcome :=
  match imgs with
  | [] => { fs := fs, mapping := mapping, warnings := warnings, copied_images := copied }
  | img :: rest =>
    let step := process_image fs img assets_dir assets_dir_name used_names
    let mapping' :=
      match step.new_path with
      | some np => dictInsert mapping img.original_src np
      | none => mapping
    process_images step.fs rest assets_dir assets_dir_name step.used_names
      mapping' (warnings ++ step.warnings) (copied ++ step.copied_images)

/-- Document base name (renderer.py lines 179-182). -/
def renderBaseName (pr : ParseResult) : String :=
  match pr.source_file with
  | some sf => pyStem (pathName sf)
  | none => "document"

/-- Directory creation and image processing of `render`
(renderer.py lines 184-206): the output directory is always created, the
assets directory only when `local_images` is non-empty. -/
def render_assets (fs : FS) (pr : ParseResult) (output_dir : String) :
    Option String × AssetsOutcome :=
  let fs := fsMkdir fs output_dir
  let assets_dir_name := "assets_" ++ renderBaseName pr
  let assets_dir := output_dir ++ "/" ++ assets_dir_name
  match pr.local_images with
  | [] => (none, { fs := fs, mapping := [], warnings := [], copied_images := [] })
  | imgs =>
    let fs := fsMkdir fs assets_dir
    (some assets_dir, process_images fs imgs assets_dir assets_dir_name [] [] [] [])

/-- Model of `HtmlRenderer.HTML_TEMPLATE` (renderer.py lines 44-59) with its four
placeholders substituted. -/
def HTML_TEMPLATE (lang title css content : String) : String :=
  "<!DOCTYPE html>\n<html lang=\"" ++ lang ++ "\">\n<head>\n    <meta charset=\"UTF-8\">\n    <meta name=\"viewport\" content=\"width=device-width, initial-scale=1.0\">\n    <title>" ++ title ++ "</title>\n    <style>\n" ++ css ++ "\n    </style>\n</head>\n<body>\n    <article class=\"markdown-body\">\n" ++ content ++ "\n    </article>\n</body>\n</html>"

/-- Output-file write and result assembly of `render` (renderer.py lines
225-239): on success `output_file` is recorded; on failure the result is
marked unsuccessful and a write warning appended.  In both cases the
parse warnings `prWarnings` are extended at the very end (line 237). -/
def render_write (fs : FS) (assetsOpt : Option String) (copied warns prWarnings : List String)
    (output_file html : String) : FS × RenderResult :=
  match fsWrite fs output_file (.text html) with
  | .ok fs' =>
    (fs', { html := html, output_file := some output_file, assets_dir := assetsOpt
            copied_images := copied
            warnings := warns ++ prWarnings, success := true })
  | .error e =>
    (fs, { html := html, output_file := none, assets_dir := assetsOpt
           copied_images := copied
           warnings := (warns ++ ["Failed to write output file: " ++ e]) ++ prWarnings
           success := false })

/-- Model of `HtmlRenderer.render` (renderer.py lines 154-239).  `upd` is
`MarkdownParser.update_image_paths` (a BeautifulSoup round trip, external
library code) and `theme_css` the result of `load_theme_css` (the CSS text
put into the `<style>` block); neither influences anything this file
proves.  Warnings: copy/placeholder warnings accumulate during the image
loop, a write failure appends its own warning, and the parse warnings are
extended at the very end. -/
def render (fs : FS) (upd : String → List (String × String) → String)
    (pr : ParseResult) (output_dir : String) (theme_css : String)
    (title : Option String) (lang : String) : FS × RenderResult :=
  let base_name := renderBaseName pr
  let ra := render_assets fs pr output_dir
  let assetsOpt := ra.1
  let st := ra.2
  let html_content := if st.mapping.isEmpty then pr.html else upd pr.html st.mapping
  let doc_title :=
    match title with
    | some t => if t = "" then base_name else t
    | none => base_name
  let html := HTML_TEMPLATE lang doc_title theme_css html_content
  let output_file := output_dir ++ "/" ++ base_name ++ ".html"
  render_write st.fs assetsOpt st.copied_images st.warnings pr.warnings output_file html

end HtmlRenderer

/-! ## Packer (`src/core/packer.py`) -/

/-- Structure `PackResult` (packer.py lines 16-23). -/
structure PackResult where
  zip_file : Option String := none
  files_packed : List String := []
  success : Bool := true
  error : Option String := none
deriving DecidableEq, Repr

/- `ExportMode` constants (packer.py lines 26-31).  The class defines
exactly these three attributes. -/
namespace ExportMode

def DEFAULT : String := "default"

def INDIVIDUAL_ZIP : String := "zip"

def BATCH_ZIP : String := "batch"

end ExportMode

/-- The message of the `AttributeError` Python raises when `converter.py`
evaluates `ExportMode.STANDALONE` (converter.py lines 164 and 241): the
`ExportMode` class (packer.py lines 26-31) defines no such attribute. -/
def standaloneAttrError : String :=
  "type object 'ExportMode' has no attribute 'STANDALONE'"

namespace ZipPacker

/-- Archive entries of one item's assets directory (packer.py lines
142-152): every file beneath the directory, stored as
`<assets-dir-name>/<relative-path>`; nothing when `assets_dir` is `None`
or does not exist on disk. -/
def assetEntries (fs : FS) (assets_dir : Option String) : List (String × Payload) :=
  match assets_dir with
  | none => []
  | some d =>
    if fsDirExists fs d then
      (fsFilesUnder fs d).map
        (fun e => (pathName d ++ "/" ++ relPathTo d e.1, e.2.toPayload))
    else []

/-- Entries contributed by one existing `(html_file, assets_dir)` item:
the HTML file under its bare name, then its asset entries
(packer.py lines 138-152). -/
def oneItemEntries (fs : FS) (html_file : String) (assets_dir : Option String) :
    List (String × Payload) :=
  (pathName html_file, ((fsLookup fs html_file).getD (.text "")).toPayload)
    :: assetEntries fs assets_dir

/-- The item loop of `pack_batch` (packer.py lines 131-152): items whose
HTML file does not exist are skipped (a logged warning only) and
contribute no entries. -/
def batchEntries (fs : FS) : List (String × Option String) → List (String × Payload)
  | [] => []
  | (html_file, assets_dir) :: rest =>
    if fsFileExists fs html_file then
      oneItemEntries fs html_file assets_dir ++ batchEntries fs rest
    else batchEntries fs rest

/-- Model of `ZipPacker.pack_batch` (packer.py lines 99-162).  `output_dir` is the
packer's constructor argument and `now` the `datetime.now()` timestamp
string.  The modelled failure point is creating the archive file itself
(injected via `FS.failWrites`); in that case nothing was packed and the
exception message becomes `error`. -/
def pack_batch (fs : FS) (output_dir : String)
    (items : List (String × Option String)) (zip_name : Option String)
    (now : String) : FS × PackResult :=
  if items.isEmpty then
    (fs, { zip_file := none, files_packed := [], success := false,
           error := some "No items to pack" })
  else
    let name := zip_name.getD ("Batch_Output_" ++ now ++ ".zip")
    let zip_path := output_dir ++ "/" ++ name
    let fs := fsMkdir fs output_dir
    let entries := batchEntries fs items
    match fsWrite fs zip_path (.zip entries) with
    | .ok fs' =>
      (fs', { zip_file := some zip_path, files_packed := entries.map Prod.fst,
              success := true, error := none })
    | .error e =>
      (fs, { zip_file := none, files_packed := [], success := false,
             error := some e })

/-- Model of `ZipPacker.cleanup_after_zip` (packer.py lines 164-187): delete the
HTML file and recursively remove the assets directory. -/
def cleanup_after_zip (fs : FS) (html_file : String) (assets_dir : Option String) :
    FS :=
  let fs := { fs with files := fs.files.filter (fun e => !(e.1 == html_file)) }
  match assets_dir with
  | none => fs
  | some d =>
    { fs with
      files := fs.files.filter (fun e => !(strStartsWith e.1 (d ++ "/")))
      dirs := fs.dirs.filter (fun x => !(x == d)) }

end ZipPacker

/-! ## Converter (`src/core/converter.py`) -/

/-- Structure `ConversionResult` (converter.py lines 29-39). -/
structure ConversionResult where
  input_file : String
  output_file : Option String := none
  assets_dir : Option String := none
  zip_file : Option String := none
  success : Bool := true
  warnings : List String := []
  error : Option String := none
deriving DecidableEq, Repr

/-- Structure `BatchResult` (converter.py lines 42-50). -/
structure BatchResult where
  results : List ConversionResult := []
  total : Nat := 0
  successful : Nat := 0
  failed : Nat := 0
  batch_zip : Option String := none
deriving DecidableEq, Repr

namespace Converter

/-- Model of `Converter.convert_file` (converter.py lines 106-204).

Control flow of the source as it stands:
* a missing input or a wrong extension fails early (lines 131-139);
* the `try` block parses the file and treats empty HTML as a parse
  failure, returning with the parse warnings attached (lines 152-160);
* otherwise line 164 evaluates `ExportMode.STANDALONE`.  The `ExportMode`
  class (packer.py lines 26-31) defines no such attribute, so Python
  raises `AttributeError`; the `except` at lines 199-202 catches it and
  stores its message as `result.error` with `success = False`.  Lines
  165-197 (render and ZIP packing) are unreachable — and `renderer.render`
  (renderer.py line 154) accepts no `standalone` keyword either.
The `output_dir`, `theme`, `export_mode` and `cleanup_after_zip`
arguments are consumed only by that unreachable code (the defaulting at
lines 141-149 has no observable effect). -/
def convert_file (fs : FS) (mdRender : String → Except String String)
    (findImgTags : String → List (String × String)) (input_file : String)
    (_output_dir : Option String) (_theme : Option String)
    (_export_mode : String) (_cleanup_after_zip : Bool) : ConversionResult :=
  if ¬ fsFileExists fs input_file then
    { input_file := input_file, success := false,
      error := some ("File not found: " ++ input_file) }
  else if ¬ (asciiLower (pySuffix (pathName input_file)) = ".md" ∨
             asciiLower (pySuffix (pathName input_file)) = ".markdown") then
    { input_file := input_file, success := false,
      error := some ("Not a Markdown file: " ++ input_file) }
  else
    let parse_result := MarkdownParser.parse_file fs mdRender findImgTags input_file
    if parse_result.html = "" then
      { input_file := input_file, success := false,
        error := some "Failed to parse Markdown",
        warnings := parse_result.warnings }
    else
      { input_file := input_file, success := false,
        error := some standaloneAttrError }

/-- The per-file loop of `convert_batch` (converter.py lines 234-262),
carrying the accumulated `BatchResult` and the `zip_items` list.  For
batch mode the per-file export mode is `DEFAULT` (line 240); every other
mode evaluates `ExportMode.STANDALONE` at line 241, and the resulting
`AttributeError` escapes `convert_batch` uncaught (`.error`). -/
def convert_batch_loop (fs : FS) (mdRender : String → Except String String)
    (findImgTags : String → List (String × String)) (output_dir : String)
    (theme : Option String) (export_mode : String) (cleanup_after_zip : Bool) :
    List String → BatchResult → List (String × Option String) →
    Except String (BatchResult × List (String × Option String))
  | [], acc, zip_items => .ok (acc, zip_items)
  | input_file :: rest, acc, zip_items =>
    if export_mode = ExportMode.BATCH_ZIP then
      let r := convert_file fs mdRender findImgTags input_file (some output_dir)
        theme ExportMode.DEFAULT
        (cleanup_after_zip && !(export_mode == ExportMode.BATCH_ZIP))
      let acc' := { acc with
        results := acc.results ++ [r]
        successful := acc.successful + (if r.success then 1 else 0)
        failed := acc.failed + (if r.success then 0 else 1) }
      -- line 260: on success under batch mode, queue (output_file, assets_dir);
      -- on that (never reached) path output_file is always set.
      let zip_items' :=
        if r.success && (export_mode == ExportMode.BATCH_ZIP) then
          zip_items ++ [(r.output_file.getD "", r.assets_dir)]
        else zip_items
      convert_batch_loop fs mdRender findImgTags output_dir theme export_mode
        cleanup_after_zip rest acc' zip_items'
    else .error standaloneAttrError

/-- Model of `Converter.convert_batch` (converter.py lines 206-279).  `.error e`
means an exception with message `e` escaped to the caller.  `now` feeds
the batch-archive timestamp.  (`convert_file` performs no writes in this
version of the code, so the filesystem is unchanged across the loop.) -/
def convert_batch (fs : FS) (mdRender : String → Except String String)
    (findImgTags : String → List (String × String)) (input_files : List String)
    (output_dir : String) (theme : Option String) (export_mode : String)
    (cleanup_after_zip : Bool) (now : String) : Except String (FS × BatchResult) :=
  let fs := fsMkdir fs output_dir
  match convert_batch_loop fs mdRender findImgTags output_dir theme export_mode
      cleanup_after_zip input_files { total := input_files.length } [] with
  | .error e => .error e
  | .ok (acc, zip_items) =>
    if export_mode = ExportMode.BATCH_ZIP ∧ zip_items ≠ [] then
      let (fs', pack_result) := ZipPacker.pack_batch fs output_dir zip_items none now
      if pack_result.success then
        let fs'' :=
          if cleanup_after_zip then
            zip_items.foldl (fun s it => ZipPacker.cleanup_after_zip s it.1 it.2) fs'
          else fs'
        .ok (fs'', { acc with batch_zip := pack_result.zip_file })
      else .ok (fs', acc)
    else .ok (fs, acc)

end Converter

/-! ## Shared fixtures for concrete runs -/

/-- A stand-in markdown-it transform for concrete runs: empty input
renders to the empty string (as markdown-it does), non-empty input to a
non-empty fragment. -/
def mdRenderSample : String → Except String String :=
  fun c => if c = "" then .ok "" else .ok ("<h1>" ++ c ++ "</h1>")

/-- An `<img>` scan finding no tags (documents without images). -/
def noImgTags : String → List (String × String) := fun _ => []

/-- Identity stand-in for the `src` rewrite. -/
def updId : String → List (String × String) → String := fun h _ => h

/-- Three well-formed Markdown input files. -/
def fsThree : FS :=
  { files := [("/in/a.md", .text "# A"), ("/in/b.md", .text "# B"),
              ("/in/c.md", .text "# C")] }

/-- The assets-directory path `render` derives for a document
(renderer.py lines 188-189). -/
def assetsDirPath (pr : ParseResult) (output_dir : String) : String :=
  output_dir ++ "/" ++ ("assets_" ++ HtmlRenderer.renderBaseName pr)

/-- A local image reference whose file does not exist. -/
def imgMissing : ImageInfo :=
  { original_src := "./m.png", local_path := some "/in/m.png",
    is_local := true, exists' := false }

/-- A source image file whose bytes spell `hi`. -/
def fsHash : FS := { files := [("/in/img.png", .bytes [104, 105])] }

/-- The unique filename `_generate_placeholder` derives for a missing
image at a given state (renderer.py lines 337-339). -/
def placeholderFilename (fs : FS) (img : ImageInfo) (used : List (String × Nat)) :
    String :=
  (HtmlRenderer.get_unique_filename fs
    ("placeholder_" ++ HtmlRenderer.placeholderStem img.original_src ++ ".png")
    none used).1

/-- Filesystem for the C7 collision scenario: one existing image file
whose bytes spell `hi` (MD5 prefix `49f68a5c`). -/
def fsS : FS := { files := [("/in/placeholder.png", .bytes [104, 105])] }

/-- Tag scan for the C7 collision scenario: one missing reference whose
stem equals the existing file's content-hash prefix, then two references
to the existing file. -/
def tagsS : String → List (String × String) :=
  fun _ => [("./49f68a5c.png", ""), ("./placeholder.png", ""), ("./placeholder.png", "")]

/-- The parsed collision-scenario document. -/
def prS : ParseResult :=
  MarkdownParser.parse fsS mdRenderSample tagsS "# A" (some "/in/doc.md")

/-- The missing local image of the collision-scenario document. -/
def imgA : ImageInfo :=
  MarkdownParser.analyze_image_src fsS "./49f68a5c.png" "" (some "/in/doc.md")

/-- A parsed document with exactly one (missing) local image. -/
def prOneImg : ParseResult :=
  { html := "<p><img src=\"./m.png\"></p>", images := [imgMissing],
    local_images := [imgMissing], warnings := ["Image not found: ./m.png"],
    source_file := some "/in/doc.md" }

/-! ## Filesystem lemmas -/

/-! Two reference digests checking the MD5 embedding against `hashlib`. -/

set_option maxRecDepth 100000 in
example : md5hex [] = "d41d8cd98f00b204e9800998ecf8427e" := by decide

set_option maxRecDepth 100000 in
example : md5hex (utf8Bytes "abc") = "900150983cd24fb0d6963f7d28e17f72" := by decide

theorem fsMkdir_files (fs : FS) (p : String) : (fsMkdir fs p).files = fs.files := by
  unfold fsMkdir
  split <;> rfl

theorem fsMkdir_failWrites (fs : FS) (p : String) :
    (fsMkdir fs p).failWrites = fs.failWrites := by
  unfold fsMkdir
  split <;> rfl

theorem fsMkdir_contains_self (fs : FS) (p : String) :
    (fsMkdir fs p).dirs.contains p = true := by
  unfold fsMkdir
  split
  · assumption
  · simp [List.contains_cons]

theorem fsFileExists_mkdir (fs : FS) (p q : String) :
    fsFileExists (fsMkdir fs p) q = fsFileExists fs q := by
  unfold fsFileExists fsLookup
  rw [fsMkdir_files]

theorem fsWrite_ok_dirs {fs fs' : FS} {p : String} {d : FileData}
    (h : fsWrite fs p d = .ok fs') : fs'.dirs = fs.dirs := by
  unfold fsWrite at h
  split at h
  · exact absurd h (by simp)
  · cases h
    rfl

theorem fsWrite_ok_failWrites {fs fs' : FS} {p : String} {d : FileData}
    (h : fsWrite fs p d = .ok fs') : fs'.failWrites = fs.failWrites := by
  unfold fsWrite at h
  split at h
  · exact absurd h (by simp)
  · cases h
    rfl

theorem fsWrite_of_no_fail {fs : FS} (p : String) (d : FileData)
    (h : fs.failWrites = []) :
    fsWrite fs p d =
      .ok { fs with files := (p, d) :: fs.files.filter (fun e => !(e.1 == p)) } := by
  unfold fsWrite
  rw [h]
  rfl

theorem fsWrite_ok_of_find_none {fs : FS} (p : String) (d : FileData)
    (h : fs.failWrites.find? (fun e => e.1 == p) = none) :
    fsWrite fs p d =
      .ok { fs with files := (p, d) :: fs.files.filter (fun e => !(e.1 == p)) } := by
  unfold fsWrite
  rw [h]

theorem fsLookup_write_self {fs fs' : FS} {p : String} {d : FileData}
    (h : fsWrite fs p d = .ok fs') : fsLookup fs' p = some d := by
  unfold fsWrite at h
  split at h
  · exact absurd h (by simp)
  · cases h
    unfold fsLookup
    simp [List.find?_cons]

theorem find?_filter_ne (l : List (String × FileData)) (p q : String)
    (hq : ¬ q = p) :
    List.find? (fun e => e.1 == q) (l.filter (fun e => !(e.1 == p))) =
      List.find? (fun e => e.1 == q) l := by
  induction l with
  | nil => rfl
  | cons e rest ih =>
    cases hp : (e.1 == p) with
    | true =>
      have hne : (e.1 == q) = false := by
        have he : e.1 = p := by simpa using hp
        simp only [beq_eq_false_iff_ne, ne_eq]
        exact fun h' => hq (h' ▸ he)
      simp [List.filter_cons, hp, List.find?_cons, hne, ih]
    | false =>
      cases hqq : (e.1 == q) with
      | true => simp [List.filter_cons, hp, List.find?_cons, hqq]
      | false => simp [List.filter_cons, hp, List.find?_cons, hqq, ih]

theorem fsLookup_write_ne {fs fs' : FS} {p : String} {d : FileData}
    (h : fsWrite fs p d = .ok fs') (q : String) (hq : ¬ q = p) :
    fsLookup fs' q = fsLookup fs q := by
  unfold fsWrite at h
  split at h
  · exact absurd h (by simp)
  · cases h
    unfold fsLookup
    simp only [List.find?_cons]
    have hpq : (p == q) = false := by
      simp only [beq_eq_false_iff_ne, ne_eq]
      exact fun he => hq he.symm
    simp only [hpq]
    rw [find?_filter_ne fs.files p q hq]

/-! ## Claim C4 -/

/-- C4: for every `<img>` `src` whose URL-decoded form has scheme `http`,
`https` or `data`, `_analyze_image_src` classifies the image as remote
(`is_local = false`), reports `exists = false`, and leaves `local_path`
unset.  The right-hand side does not mention the filesystem and the
theorem holds for every `fs`, so no filesystem check is involved. -/
theorem c4_remote_scheme (fs : FS) (src alt : String) (source_file : Option String)
    (h : urlScheme (unquote src) = "http" ∨ urlScheme (unquote src) = "https" ∨
         urlScheme (unquote src) = "data") :
    MarkdownParser.analyze_image_src fs src alt source_file =
      { original_src := src, local_path := none, is_local := false,
        exists' := false, alt_text := alt } := by
  unfold MarkdownParser.analyze_image_src
  rw [if_pos h]

/-- Witness for C4 at `https://example.com/a.png` (and independence from
two different filesystems). -/
theorem c4_remote_scheme_witness :
    MarkdownParser.analyze_image_src { files := [] } "https://example.com/a.png" "x" none =
      { original_src := "https://example.com/a.png", local_path := none,
        is_local := false, exists' := false, alt_text := "x" } ∧
    MarkdownParser.analyze_image_src fsThree "https://example.com/a.png" "x" none =
      MarkdownParser.analyze_image_src { files := [] } "https://example.com/a.png" "x" none :=
  ⟨c4_remote_scheme { files := [] } "https://example.com/a.png" "x" none
      (Or.inr (Or.inl (by decide))),
   by
    rw [c4_remote_scheme fsThree "https://example.com/a.png" "x" none
        (Or.inr (Or.inl (by decide))),
      c4_remote_scheme { files := [] } "https://example.com/a.png" "x" none
        (Or.inr (Or.inl (by decide)))]⟩

/-! ## Claim C9 -/

/-- C9: an input file that exists with a `.md` extension but renders to
empty HTML makes `convert_file` fail with `error = "Failed to parse
Markdown"`, while the parse step raised no error and recorded no warning
(the returned warning list is empty). -/
theorem c9_empty_html_fails (fs : FS) (mdRender : String → Except String String)
    (findImgTags : String → List (String × String)) (input : String)
    (outd theme : Option String) (mode : String) (cl : Bool) (content : String)
    (hread : fsReadText fs input = some content)
    (hsuf : asciiLower (pySuffix (pathName input)) = ".md" ∨
            asciiLower (pySuffix (pathName input)) = ".markdown")
    (hmd : mdRender content = .ok "")
    (htags : findImgTags "" = []) :
    Converter.convert_file fs mdRender findImgTags input outd theme mode cl =
      { input_file := input, success := false,
        error := some "Failed to parse Markdown", warnings := [] } := by
  have hex : fsFileExists fs input = true := by
    unfold fsReadText at hread
    unfold fsFileExists
    cases hl : fsLookup fs input with
    | none => rw [hl] at hread; exact absurd hread (by simp)
    | some d => simp
  rcases hsuf with h | h <;>
    simp [Converter.convert_file, MarkdownParser.parse_file, MarkdownParser.parse,
      MarkdownParser.extract_images, hex, hread, hmd, htags, h]

/-- Witness for C9: an empty `.md` file. -/
theorem c9_empty_html_fails_witness :
    Converter.convert_file { files := [("/in/e.md", .text "")] } mdRenderSample
      noImgTags "/in/e.md" none none ExportMode.DEFAULT false =
      { input_file := "/in/e.md", success := false,
        error := some "Failed to parse Markdown", warnings := [] } :=
  c9_empty_html_fails { files := [("/in/e.md", .text "")] } mdRenderSample noImgTags
    "/in/e.md" none none ExportMode.DEFAULT false "" (by decide) (Or.inl (by decide))
    rfl rfl

/-! ## Claims C1 and C2 (behaviour of `convert_batch` as coded) -/

/-- C1: `convert_batch` in batch-zip mode on three existing, well-formed
`.md` files.  Contrary to the claim, every file fails — converter.py line
164 evaluates `ExportMode.STANDALONE`, which packer.py's `ExportMode`
does not define, and the per-file `except` turns the `AttributeError`
into each file's `error` — so `successful = 0`, `failed = 3`, and no
batch archive is produced. -/
theorem c1_batch_of_three_all_fail :
    (match Converter.convert_batch fsThree mdRenderSample noImgTags
        ["/in/a.md", "/in/b.md", "/in/c.md"] "/out" none ExportMode.BATCH_ZIP
        false "20260101_000000" with
     | .ok (_, b) =>
        some (b.total, b.successful, b.failed, b.batch_zip,
              b.results.map (fun r => r.error))
     | .error _ => none) =
      some (3, 0, 3, none,
            [some standaloneAttrError, some standaloneAttrError,
             some standaloneAttrError]) := rfl

/-- C2: `convert_batch` in default mode on one existing file lets an
exception escape to its caller — converter.py line 241 evaluates the
missing `ExportMode.STANDALONE` outside any `try`, so the
`AttributeError` aborts the batch instead of being captured in the
file's `ConversionResult`. -/
theorem c2_default_mode_raises :
    Converter.convert_batch fsThree mdRenderSample noImgTags ["/in/a.md"]
      "/out" none ExportMode.DEFAULT false "20260101_000000" =
      .error standaloneAttrError := rfl

/-! ## Claim C3 -/

/-- Parse result with one parse-step warning and no images. -/
def prC3 : ParseResult :=
  { html := "<p>x</p>", warnings := ["Image not found: a.png"],
    source_file := some "/in/a.md" }

/-- Filesystem on which writing the output HTML raises. -/
def fsC3 : FS := { failWrites := [("/out/a.html", "disk full")] }

/-- C3 counterexample: with one parse-step warning and a failing output
write, `render` returns the render-step warning *before* the parse
warning — the claimed parse-then-render order does not hold. -/
theorem c3_counterexample :
    (HtmlRenderer.render fsC3 updId prC3 "/out" "" none "en").2.warnings =
      ["Failed to write output file: disk full", "Image not found: a.png"] ∧
    prC3.warnings = ["Image not found: a.png"] ∧
    ["Failed to write output file: disk full", "Image not found: a.png"] ≠
      ["Image not found: a.png", "Failed to write output file: disk full"] :=
  ⟨rfl, rfl, by decide⟩

theorem render_write_warnings_split (fs : FS) (aOpt : Option String)
    (copied warns prw : List String) (p html : String) :
    (HtmlRenderer.render_write fs aOpt copied warns prw p html).2.warnings =
      (HtmlRenderer.render_write fs aOpt copied warns [] p html).2.warnings ++ prw := by
  unfold HtmlRenderer.render_write
  cases hw : fsWrite fs p (.text html) with
  | ok fs' => simp [hw]
  | error e => simp [hw]

/-- C3 (amended): the warning list of the `RenderResult` returned by
`render` is the union of the render-step warnings and the parse-step
warnings, but ordered with the render-step warnings first and the parse
warnings appended at the end (renderer.py line 237 runs last). -/
theorem c3_render_warning_order (fs : FS)
    (upd : String → List (String × String) → String) (pr : ParseResult)
    (output_dir theme_css : String) (title : Option String) (lang : String) :
    (HtmlRenderer.render fs upd pr output_dir theme_css title lang).2.warnings =
      (HtmlRenderer.render fs upd { pr with warnings := [] } output_dir theme_css
        title lang).2.warnings ++ pr.warnings := by
  cases pr with
  | mk h i l w s =>
    unfold HtmlRenderer.render
    simp only []
    rw [show HtmlRenderer.render_assets fs ⟨h, i, l, w, s⟩ output_dir =
      HtmlRenderer.render_assets fs ⟨h, i, l, [], s⟩ output_dir from rfl]
    rw [show HtmlRenderer.renderBaseName ⟨h, i, l, w, s⟩ =
      HtmlRenderer.renderBaseName ⟨h, i, l, [], s⟩ from rfl]
    apply render_write_warnings_split

/-! ## Claim C5 -/

theorem shutil_copy2_ok_dirs {fs fs' : FS} {a b : String}
    (h : shutil_copy2 fs a b = .ok fs') : fs'.dirs = fs.dirs := by
  unfold shutil_copy2 at h
  split at h
  · exact absurd h (by simp)
  · exact fsWrite_ok_dirs h

theorem copy_image_dirs (fs : FS) (sp ad adn : String) (used : List (String × Nat)) :
    (HtmlRenderer.copy_image fs sp ad adn used).fs.dirs = fs.dirs := by
  unfold HtmlRenderer.copy_image
  cases hc : shutil_copy2 fs sp
      (ad ++ "/" ++ (HtmlRenderer.get_unique_filename fs (pathName sp) (some sp) used).1) with
  | ok fs' =>
    simp only [hc]
    exact shutil_copy2_ok_dirs hc
  | error e => simp only [hc]

theorem generate_placeholder_dirs (fs : FS) (img : ImageInfo) (ad adn : String)
    (used : List (String × Nat)) :
    (HtmlRenderer.generate_placeholder fs img ad adn used).fs.dirs = fs.dirs := by
  unfold HtmlRenderer.generate_placeholder
  cases hc : fsWrite fs
      (ad ++ "/" ++ (HtmlRenderer.get_unique_filename fs
        ("placeholder_" ++ HtmlRenderer.placeholderStem img.original_src ++ ".png")
        none used).1) (.png 400 300) with
  | ok fs' =>
    simp only [hc]
    exact fsWrite_ok_dirs hc
  | error e => simp only [hc]

theorem process_image_dirs (fs : FS) (img : ImageInfo) (ad adn : String)
    (used : List (String × Nat)) :
    (HtmlRenderer.process_image fs img ad adn used).fs.dirs = fs.dirs := by
  unfold HtmlRenderer.process_image
  cases img.local_path with
  | some p =>
    by_cases he : img.exists' <;>
      simp [he, copy_image_dirs, generate_placeholder_dirs]
  | none => simp [generate_placeholder_dirs]

theorem process_images_dirs (imgs : List ImageInfo) :
    ∀ (fs : FS) (ad adn : String) (used : List (String × Nat))
      (m : List (String × String)) (w c : List String),
    (HtmlRenderer.process_images fs imgs ad adn used m w c).fs.dirs = fs.dirs := by
  induction imgs with
  | nil => intro fs ad adn used m w c; rfl
  | cons img rest ih =>
    intro fs ad adn used m w c
    unfold HtmlRenderer.process_images
    rw [ih]
    exact process_image_dirs fs img ad adn used

theorem render_write_proj (fs : FS) (aOpt : Option String)
    (copied warns prw : List String) (p html : String) :
    (HtmlRenderer.render_write fs aOpt copied warns prw p html).2.assets_dir = aOpt ∧
    (HtmlRenderer.render_write fs aOpt copied warns prw p html).1.dirs = fs.dirs := by
  unfold HtmlRenderer.render_write
  cases hw : fsWrite fs p (.text html) with
  | ok fs' => simp [hw, fsWrite_ok_dirs hw]
  | error e => simp [hw]

/-- The `assets_dir` of the returned `RenderResult` comes from `render_assets`,
and the final filesystem's directory set is the one `render_assets`
produced (the HTML write touches no directory). -/
theorem render_proj (fs : FS) (upd : String → List (String × String) → String)
    (pr : ParseResult) (out css : String) (title : Option String) (lang : String) :
    (HtmlRenderer.render fs upd pr out css title lang).2.assets_dir =
      (HtmlRenderer.render_assets fs pr out).1 ∧
    (HtmlRenderer.render fs upd pr out css title lang).1.dirs =
      (HtmlRenderer.render_assets fs pr out).2.fs.dirs := by
  unfold HtmlRenderer.render
  exact render_write_proj _ _ _ _ _ _ _

theorem render_assets_nil (fs : FS) (pr : ParseResult) (out : String)
    (hl : pr.local_images = []) :
    HtmlRenderer.render_assets fs pr out =
      (none, { fs := fsMkdir fs out, mapping := [], warnings := [],
               copied_images := [] }) := by
  unfold HtmlRenderer.render_assets
  rw [hl]

theorem render_assets_cons (fs : FS) (pr : ParseResult) (out : String)
    (img : ImageInfo) (rest : List ImageInfo)
    (hl : pr.local_images = img :: rest) :
    HtmlRenderer.render_assets fs pr out =
      (some (out ++ "/" ++ ("assets_" ++ HtmlRenderer.renderBaseName pr)),
       HtmlRenderer.process_images
         (fsMkdir (fsMkdir fs out) (out ++ "/" ++ ("assets_" ++ HtmlRenderer.renderBaseName pr)))
         (img :: rest) (out ++ "/" ++ ("assets_" ++ HtmlRenderer.renderBaseName pr))
         ("assets_" ++ HtmlRenderer.renderBaseName pr) [] [] [] []) := by
  unfold HtmlRenderer.render_assets
  rw [hl]

/-- C5: `render` returns `assets_dir = some <assets path>` with that
directory created on disk exactly when the document has local images;
with zero local images `assets_dir` stays unset and no directory beyond
the output directory is created. -/
theorem c5_assets_dir_iff (fs : FS)
    (upd : String → List (String × String) → String) (pr : ParseResult)
    (output_dir theme_css : String) (title : Option String) (lang : String) :
    (((HtmlRenderer.render fs upd pr output_dir theme_css title lang).2.assets_dir =
        some (assetsDirPath pr output_dir) ∧
      ((HtmlRenderer.render fs upd pr output_dir theme_css title lang).1.dirs.contains
        (assetsDirPath pr output_dir)) = true) ↔ pr.local_images ≠ []) ∧
    (pr.local_images = [] →
      (HtmlRenderer.render fs upd pr output_dir theme_css title lang).2.assets_dir = none ∧
      (HtmlRenderer.render fs upd pr output_dir theme_css title lang).1.dirs =
        (fsMkdir fs output_dir).dirs) := by
  obtain ⟨had, hdirs⟩ := render_proj fs upd pr output_dir theme_css title lang
  constructor
  · constructor
    · intro hx hnil
      rw [render_assets_nil fs pr output_dir hnil] at had
      rw [had] at hx
      exact absurd hx.1 (by simp)
    · intro hne
      obtain ⟨img, rest, hl⟩ : ∃ a b, pr.local_images = a :: b := by
        cases hpl : pr.local_images with
        | nil => exact absurd hpl hne
        | cons a b => exact ⟨a, b, rfl⟩
      rw [render_assets_cons fs pr output_dir img rest hl] at had hdirs
      refine ⟨by rw [had]; rfl, ?_⟩
      rw [hdirs, process_images_dirs]
      exact fsMkdir_contains_self _ _
  · intro hnil
    rw [render_assets_nil fs pr output_dir hnil] at had hdirs
    exact ⟨by rw [had], by rw [hdirs]⟩

/-! ## Claim C7 -/

/-- Concatenation distributes over the character lists of strings. -/
theorem strToList_append (a b : String) : (a ++ b).toList = a.toList ++ b.toList := rfl

/-- String concatenation is associative. -/
theorem strAppend_assoc (a b c : String) : (a ++ b) ++ c = a ++ (b ++ c) := by
  cases a with
  | mk da =>
    cases b with
    | mk db =>
      cases c with
      | mk dc =>
        show String.mk ((da ++ db) ++ dc) = String.mk (da ++ (db ++ dc))
        rw [List.append_assoc]

/-- A path ending in `.png` never equals one ending in `.html`. -/
theorem ne_png_html (a b : String) : ¬ (a ++ ".png" = b ++ ".html") := by
  intro h
  have h2 : (a ++ ".png").toList.getLast? = (b ++ ".html").toList.getLast? := by rw [h]
  rw [strToList_append, strToList_append,
    List.getLast?_append_of_ne_nil _ (by decide),
    List.getLast?_append_of_ne_nil _ (by decide)] at h2
  exact absurd h2 (by decide)

/-- A missing image is processed through `_generate_placeholder`. -/
theorem process_image_missing (fs : FS) (img : ImageInfo) (ad adn : String)
    (used : List (String × Nat)) (hmiss : img.exists' = false) :
    HtmlRenderer.process_image fs img ad adn used =
      HtmlRenderer.generate_placeholder fs img ad adn used := by
  unfold HtmlRenderer.process_image
  cases img.local_path <;> simp [hmiss]

/-- Running `_generate_placeholder` with a fresh used-name table and a succeeding
save: the placeholder keeps its derived name and lands in the assets
directory as a 400×300 PNG. -/
theorem generate_placeholder_fresh (fs : FS) (img : ImageInfo) (ad adn : String)
    (hfail : fs.failWrites.find?
      (fun e => e.1 == ad ++ "/" ++
        ("placeholder_" ++ HtmlRenderer.placeholderStem img.original_src ++ ".png")) = none) :
    HtmlRenderer.generate_placeholder fs img ad adn [] =
      { fs := { fs with files :=
            (ad ++ "/" ++
              ("placeholder_" ++ HtmlRenderer.placeholderStem img.original_src ++ ".png"),
             .png 400 300) ::
            fs.files.filter (fun e => !(e.1 == ad ++ "/" ++
              ("placeholder_" ++ HtmlRenderer.placeholderStem img.original_src ++ ".png"))) }
        used_names :=
          [("placeholder_" ++ HtmlRenderer.placeholderStem img.original_src ++ ".png", 1)]
        new_path := some ("./" ++ adn ++ "/" ++
          ("placeholder_" ++ HtmlRenderer.placeholderStem img.original_src ++ ".png"))
        warnings := []
        copied_images := [ad ++ "/" ++
          ("placeholder_" ++ HtmlRenderer.placeholderStem img.original_src ++ ".png")] } := by
  unfold HtmlRenderer.generate_placeholder
  simp only []
  rw [show HtmlRenderer.get_unique_filename fs
      ("placeholder_" ++ HtmlRenderer.placeholderStem img.original_src ++ ".png") none [] =
      ("placeholder_" ++ HtmlRenderer.placeholderStem img.original_src ++ ".png",
       [("placeholder_" ++ HtmlRenderer.placeholderStem img.original_src ++ ".png", 1)])
      from rfl]
  rw [fsWrite_ok_of_find_none _ _ hfail]

/-- The image loop on a single image in terms of `process_image`. -/
theorem process_images_single (fs : FS) (img : ImageInfo) (ad adn : String) :
    HtmlRenderer.process_images fs [img] ad adn [] [] [] [] =
      { fs := (HtmlRenderer.process_image fs img ad adn []).fs
        mapping :=
          match (HtmlRenderer.process_image fs img ad adn []).new_path with
          | some np => [(img.original_src, np)]
          | none => []
        warnings := (HtmlRenderer.process_image fs img ad adn []).warnings
        copied_images := (HtmlRenderer.process_image fs img ad adn []).copied_images } := by
  unfold HtmlRenderer.process_images
  cases hnp : (HtmlRenderer.process_image fs img ad adn []).new_path with
  | some np => simp [HtmlRenderer.process_images, hnp, HtmlRenderer.dictInsert]
  | none => simp [HtmlRenderer.process_images, hnp]

/-- Running `render_assets` on a document whose single local image is missing,
with no injected write faults: the placeholder PNG is saved under its
derived name and the mapping sends the original `src` to it. -/
theorem render_assets_single_missing (fs : FS) (pr : ParseResult) (out : String)
    (img : ImageInfo) (hl : pr.local_images = [img]) (hmiss : img.exists' = false)
    (hfail : fs.failWrites = []) :
    HtmlRenderer.render_assets fs pr out =
      (some (out ++ "/" ++ ("assets_" ++ HtmlRenderer.renderBaseName pr)),
       { fs := { fsMkdir (fsMkdir fs out)
              (out ++ "/" ++ ("assets_" ++ HtmlRenderer.renderBaseName pr)) with
            files :=
              ((out ++ "/" ++ ("assets_" ++ HtmlRenderer.renderBaseName pr)) ++ "/" ++
                ("placeholder_" ++ HtmlRenderer.placeholderStem img.original_src ++ ".png"),
               .png 400 300) ::
              fs.files.filter (fun e =>
                !(e.1 == (out ++ "/" ++ ("assets_" ++ HtmlRenderer.renderBaseName pr)) ++ "/" ++
                  ("placeholder_" ++ HtmlRenderer.placeholderStem img.original_src ++ ".png"))) }
         mapping := [(img.original_src,
           "./" ++ ("assets_" ++ HtmlRenderer.renderBaseName pr) ++ "/" ++
             ("placeholder_" ++ HtmlRenderer.placeholderStem img.original_src ++ ".png"))]
         warnings := []
         copied_images :=
           [(out ++ "/" ++ ("assets_" ++ HtmlRenderer.renderBaseName pr)) ++ "/" ++
             ("placeholder_" ++ HtmlRenderer.placeholderStem img.original_src ++ ".png")] }) := by
  rw [render_assets_cons fs pr out img [] hl]
  rw [process_images_single]
  rw [process_image_missing _ _ _ _ _ hmiss]
  rw [generate_placeholder_fresh _ _ _ _
    (by rw [fsMkdir_failWrites, fsMkdir_failWrites, hfail]; rfl)]
  simp [fsMkdir_files]

/-- Running `_generate_placeholder` at an arbitrary loop state with a
succeeding save: the placeholder is rasterised as a 400×300 PNG and
saved in the assets directory under the name `_get_unique_filename`
derives from `placeholder_<stem-or-missing>.png`, which is also returned
as the new relative path. -/
theorem generate_placeholder_ok (fs : FS) (img : ImageInfo) (ad adn : String)
    (used : List (String × Nat))
    (hfail : fs.failWrites.find?
      (fun e => e.1 == ad ++ "/" ++ placeholderFilename fs img used) = none) :
    HtmlRenderer.generate_placeholder fs img ad adn used =
      { fs := { fs with files :=
            (ad ++ "/" ++ placeholderFilename fs img used, .png 400 300) ::
            fs.files.filter (fun e =>
              !(e.1 == ad ++ "/" ++ placeholderFilename fs img used)) }
        used_names := (HtmlRenderer.get_unique_filename fs
          ("placeholder_" ++ HtmlRenderer.placeholderStem img.original_src ++ ".png")
          none used).2
        new_path := some ("./" ++ adn ++ "/" ++ placeholderFilename fs img used)
        warnings := []
        copied_images := [ad ++ "/" ++ placeholderFilename fs img used] } := by
  unfold HtmlRenderer.generate_placeholder
  simp only []
  have hfind : fs.failWrites.find?
      (fun e => e.1 == ad ++ "/" ++ (HtmlRenderer.get_unique_filename fs
        ("placeholder_" ++ HtmlRenderer.placeholderStem img.original_src ++ ".png")
        none used).1) = none := hfail
  rw [fsWrite_ok_of_find_none _ _ hfind]
  rfl

set_option maxRecDepth 400000 in
/-- C7 counterexample, refuting the claim's universal end-state reading.
The parsed document `prS` contains the missing local image
`./49f68a5c.png` (and the warning is recorded), but by the end of
`render` the synthesized placeholder is gone: the document also
references the existing file `placeholder.png` twice, the second copy's
disambiguated name is `placeholder_<md5-prefix-of-its-bytes>.png =
placeholder_49f68a5c.png` — the suffixed names handed out by
`_get_unique_filename` are never recorded in the used-filename table
(renderer.py lines 370-385) — so `shutil.copy2` overwrites the
placeholder file (renderer.py line 287).  The missing image's `src` is
mapped to a path now holding the copied image bytes, and no 400×300 PNG
exists anywhere on the final filesystem. -/
theorem c7_counterexample :
    imgA ∈ prS.local_images ∧ imgA.exists' = false ∧
    ("Image not found: ./49f68a5c.png" ∈ prS.warnings) ∧
    (HtmlRenderer.render_assets fsS prS "/out").2.mapping.find?
      (fun e => e.1 == "./49f68a5c.png") =
      some ("./49f68a5c.png", "./assets_doc/placeholder_49f68a5c.png") ∧
    fsLookup (HtmlRenderer.render fsS updId prS "/out" "" none "en").1
      "/out/assets_doc/placeholder_49f68a5c.png" = some (.bytes [104, 105]) ∧
    FileData.png 400 300 ∉
      ((HtmlRenderer.render fsS updId prS "/out" "" none "en").1.files.map Prod.snd) := by
  refine ⟨by decide, by decide, by decide, by decide, by decide, by decide⟩

theorem render_write_html (fs : FS) (aOpt : Option String)
    (copied warns prw : List String) (p html : String) :
    (HtmlRenderer.render_write fs aOpt copied warns prw p html).2.html = html := by
  unfold HtmlRenderer.render_write
  cases hw : fsWrite fs p (.text html) <;> simp [hw]

theorem render_write_lookup_ok (fs : FS) (aOpt : Option String)
    (copied warns prw : List String) (p html : String) (q : String)
    (hfind : fs.failWrites.find? (fun e => e.1 == p) = none) (hq : ¬ q = p) :
    fsLookup (HtmlRenderer.render_write fs aOpt copied warns prw p html).1 q =
      fsLookup fs q := by
  unfold HtmlRenderer.render_write
  rw [fsWrite_ok_of_find_none p (.text html) hfind]
  exact fsLookup_write_ne (fsWrite_ok_of_find_none p (.text html) hfind) q hq

/-- C7 (amended): (1) for every parsed document, each local image whose
file does not exist contributes the warning `"Image not found:
<original src>"` to the parse result; (2) at whatever state the render
loop has reached (any filesystem without injected write faults, any
used-filename table), processing a missing local image synthesizes a
400×300 placeholder PNG, saves it in the assets directory under the
filename `_get_unique_filename` derives from
`placeholder_<stem-or-missing>.png`, and returns that path for the
`src` mapping; (3) the saved placeholder is not guaranteed to survive
later loop iterations (`c7_counterexample`: a later image's
disambiguated filename can collide with it and overwrite the file), but
when the missing image is the document's only local image it persists
to the end of `render`, with the mapping handed to the HTML rewrite
pointing at it. -/
theorem c7_missing_image_placeholder :
    (∀ (fs : FS) (mdRender : String → Except String String)
       (findImgTags : String → List (String × String)) (content : String)
       (sf : Option String) (img : ImageInfo),
       img ∈ (MarkdownParser.parse fs mdRender findImgTags content sf).local_images →
       img.exists' = false →
       ("Image not found: " ++ img.original_src) ∈
         (MarkdownParser.parse fs mdRender findImgTags content sf).warnings) ∧
    (∀ (fs : FS) (img : ImageInfo) (ad adn : String) (used : List (String × Nat)),
       img.exists' = false → fs.failWrites = [] →
       HtmlRenderer.process_image fs img ad adn used =
         { fs := { fs with files :=
               (ad ++ "/" ++ placeholderFilename fs img used, .png 400 300) ::
               fs.files.filter (fun e =>
                 !(e.1 == ad ++ "/" ++ placeholderFilename fs img used)) }
           used_names := (HtmlRenderer.get_unique_filename fs
             ("placeholder_" ++ HtmlRenderer.placeholderStem img.original_src ++ ".png")
             none used).2
           new_path := some ("./" ++ adn ++ "/" ++ placeholderFilename fs img used)
           warnings := []
           copied_images := [ad ++ "/" ++ placeholderFilename fs img used] }) ∧
    (∀ (fs : FS) (upd : String → List (String × String) → String) (pr : ParseResult)
       (out css : String) (title : Option String) (lang : String) (img : ImageInfo),
       pr.local_images = [img] → img.exists' = false → fs.failWrites = [] →
       (HtmlRenderer.render_assets fs pr out).2.mapping =
         [(img.original_src,
           "./" ++ ("assets_" ++ HtmlRenderer.renderBaseName pr) ++ "/" ++
             ("placeholder_" ++ HtmlRenderer.placeholderStem img.original_src ++ ".png"))] ∧
       fsLookup (HtmlRenderer.render fs upd pr out css title lang).1
         ((out ++ "/" ++ ("assets_" ++ HtmlRenderer.renderBaseName pr)) ++ "/" ++
           ("placeholder_" ++ HtmlRenderer.placeholderStem img.original_src ++ ".png")) =
         some (.png 400 300) ∧
       (∃ t, (HtmlRenderer.render fs upd pr out css title lang).2.html =
         HtmlRenderer.HTML_TEMPLATE lang t css
           (upd pr.html
             [(img.original_src,
               "./" ++ ("assets_" ++ HtmlRenderer.renderBaseName pr) ++ "/" ++
                 ("placeholder_" ++ HtmlRenderer.placeholderStem img.original_src ++
                   ".png"))]))) := by
  refine ⟨?_, ?_, ?_⟩
  · intro fs mdRender findImgTags content sf img hmem hmiss
    unfold MarkdownParser.parse at hmem ⊢
    cases hmd : mdRender content with
    | error e =>
      simp only [hmd] at hmem
      simp at hmem
    | ok h =>
      simp only [hmd] at hmem ⊢
      exact List.mem_map_of_mem _ (List.mem_filter.mpr ⟨hmem, by simp [hmiss]⟩)
  · intro fs img ad adn used hmiss hfail
    rw [process_image_missing fs img ad adn used hmiss]
    exact generate_placeholder_ok fs img ad adn used (by rw [hfail]; rfl)
  · intro fs upd pr out css title lang img hl hmiss hfail
    have hras := render_assets_single_missing fs pr out img hl hmiss hfail
    refine ⟨by rw [hras], ?_, ?_⟩
    · unfold HtmlRenderer.render
      rw [hras]
      simp only []
      rw [render_write_lookup_ok _ _ _ _ _ _ _ _
        (by simp [fsMkdir_failWrites, hfail]) ?hne]
      case hne =>
        rw [← strAppend_assoc
          (out ++ "/" ++ ("assets_" ++ HtmlRenderer.renderBaseName pr) ++ "/")
          ("placeholder_" ++ HtmlRenderer.placeholderStem img.original_src) ".png"]
        exact ne_png_html _ _
      · unfold fsLookup
        simp [List.find?_cons]
    · refine ⟨match title with
        | some t => if t = "" then HtmlRenderer.renderBaseName pr else t
        | none => HtmlRenderer.renderBaseName pr, ?_⟩
      unfold HtmlRenderer.render
      rw [hras]
      simp only []
      rw [render_write_html]
      rfl

/-- Witness for C7: the warning at a concrete parsed document; the
processing step on a fresh state saving the placeholder PNG; and the
one-missing-image document ending the render with the PNG on disk. -/
theorem c7_missing_image_placeholder_witness :
    ("Image not found: ./img.png" ∈
      (MarkdownParser.parse { files := [] } mdRenderSample
        (fun _ => [("./img.png", "y")]) "# A" (some "/in/a.md")).warnings) ∧
    HtmlRenderer.process_image { files := [] } imgMissing
      "/out/assets_doc" "assets_doc" [] =
      { fs := { files := [("/out/assets_doc/placeholder_m.png", FileData.png 400 300)] }
        used_names := [("placeholder_m.png", 1)]
        new_path := some "./assets_doc/placeholder_m.png"
        warnings := []
        copied_images := ["/out/assets_doc/placeholder_m.png"] } ∧
    fsLookup (HtmlRenderer.render { files := [] } updId prOneImg "/out" "" none "en").1
      "/out/assets_doc/placeholder_m.png" = some (.png 400 300) := by
  refine ⟨?_, ?_, ?_⟩
  · have hmem : MarkdownParser.analyze_image_src { files := [] } "./img.png" "y"
        (some "/in/a.md") ∈
        (MarkdownParser.parse { files := [] } mdRenderSample
          (fun _ => [("./img.png", "y")]) "# A" (some "/in/a.md")).local_images := by
      decide
    exact c7_missing_image_placeholder.1 { files := [] } mdRenderSample
      (fun _ => [("./img.png", "y")]) "# A" (some "/in/a.md") _ hmem (by decide)
  · exact c7_missing_image_placeholder.2.1 { files := [] } imgMissing
      "/out/assets_doc" "assets_doc" [] rfl rfl
  · have h := (c7_missing_image_placeholder.2.2 { files := [] } updId prOneImg
      "/out" "" none "en" imgMissing (by decide) rfl rfl).2.1
    exact h

/-! ## Claims C8 and C10 -/

/-- The item loop of `pack_batch` packs exactly the items whose HTML file
exists; the missing ones contribute no entries. -/
theorem batchEntries_filter (fs : FS) (items : List (String × Option String)) :
    ZipPacker.batchEntries fs items =
      (items.filter (fun it => fsFileExists fs it.1)).flatMap
        (fun it => ZipPacker.oneItemEntries fs it.1 it.2) := by
  induction items with
  | nil => rfl
  | cons it rest ih =>
    cases it with
    | mk hf ad =>
      unfold ZipPacker.batchEntries
      cases he : fsFileExists fs hf with
      | true => simp [List.filter_cons, he, ih]
      | false => simp [List.filter_cons, he, ih]

theorem batchEntries_nil_of_missing (fs : FS) (items : List (String × Option String))
    (h : ∀ it ∈ items, fsFileExists fs it.1 = false) :
    ZipPacker.batchEntries fs items = [] := by
  induction items with
  | nil => rfl
  | cons it rest ih =>
    cases it with
    | mk hf ad =>
      unfold ZipPacker.batchEntries
      rw [h (hf, ad) (by simp)]
      simp only [Bool.false_eq_true, if_false]
      exact ih (fun x hx => h x (by simp [hx]))

/-- Running `pack_batch` on a non-empty item list whose archive write succeeds:
the full outcome. -/
theorem pack_batch_ok (fs : FS) (out : String)
    (items : List (String × Option String)) (zn : Option String) (now : String)
    (hne : items ≠ [])
    (hw : fs.failWrites.find?
      (fun e => e.1 == out ++ "/" ++ zn.getD ("Batch_Output_" ++ now ++ ".zip")) = none) :
    ZipPacker.pack_batch fs out items zn now =
      ({ fsMkdir fs out with
          files := (out ++ "/" ++ zn.getD ("Batch_Output_" ++ now ++ ".zip"),
                    .zip (ZipPacker.batchEntries (fsMkdir fs out) items)) ::
            (fsMkdir fs out).files.filter
              (fun e => !(e.1 == out ++ "/" ++ zn.getD ("Batch_Output_" ++ now ++ ".zip"))) },
       { zip_file := some (out ++ "/" ++ zn.getD ("Batch_Output_" ++ now ++ ".zip")),
         files_packed := (ZipPacker.batchEntries (fsMkdir fs out) items).map Prod.fst,
         success := true, error := none }) := by
  unfold ZipPacker.pack_batch
  have hie : items.isEmpty = false := by
    cases items with
    | nil => exact absurd rfl hne
    | cons a b => rfl
  simp only [hie, Bool.false_eq_true, if_false]
  rw [fsWrite_ok_of_find_none _ _ (by rw [fsMkdir_failWrites]; exact hw)]

/-- C8: `pack_batch` on an empty item list fails with
`"No items to pack"` and leaves the filesystem untouched (no archive is
created); on a non-empty list each item whose HTML file does not exist
is skipped and contributes no entries while the remaining items are
packed, and when writing the archive succeeds the result has
`success = true` with the archive on disk holding exactly those
entries. -/
theorem c8_pack_batch (fs : FS) (out : String)
    (items : List (String × Option String)) (zn : Option String) (now : String) :
    (items = [] →
      ZipPacker.pack_batch fs out items zn now =
        (fs, { zip_file := none, files_packed := [], success := false,
               error := some "No items to pack" })) ∧
    (ZipPacker.batchEntries fs items =
      (items.filter (fun it => fsFileExists fs it.1)).flatMap
        (fun it => ZipPacker.oneItemEntries fs it.1 it.2)) ∧
    (items ≠ [] →
      fs.failWrites.find?
        (fun e => e.1 == out ++ "/" ++ zn.getD ("Batch_Output_" ++ now ++ ".zip")) = none →
      (ZipPacker.pack_batch fs out items zn now).2.success = true ∧
      (ZipPacker.pack_batch fs out items zn now).2.error = none ∧
      (ZipPacker.pack_batch fs out items zn now).2.zip_file =
        some (out ++ "/" ++ zn.getD ("Batch_Output_" ++ now ++ ".zip")) ∧
      fsLookup (ZipPacker.pack_batch fs out items zn now).1
        (out ++ "/" ++ zn.getD ("Batch_Output_" ++ now ++ ".zip")) =
        some (.zip (ZipPacker.batchEntries (fsMkdir fs out) items)) ∧
      (ZipPacker.pack_batch fs out items zn now).2.files_packed =
        (ZipPacker.batchEntries (fsMkdir fs out) items).map Prod.fst) := by
  refine ⟨?_, batchEntries_filter fs items, ?_⟩
  · intro h
    subst h
    rfl
  · intro hne hw
    rw [pack_batch_ok fs out items zn now hne hw]
    refine ⟨rfl, rfl, rfl, ?_, rfl⟩
    unfold fsLookup
    simp [List.find?_cons]

/-- Existing HTML file with one asset, next to a missing one. -/
def fsPack : FS :=
  { files := [("/out/a.html", .text "A"), ("/out/assets_a/i.png", .png 1 1)],
    dirs := ["/out/assets_a"] }

/-- One existing item (with assets) and one missing item. -/
def itemsPack : List (String × Option String) :=
  [("/out/a.html", some "/out/assets_a"), ("/out/b.html", none)]

/-- Witness for C8: the missing `b.html` is skipped, the archive holds
exactly the existing item's HTML and asset entries, and the empty list is
rejected without touching the filesystem. -/
theorem c8_pack_batch_witness :
    (ZipPacker.pack_batch fsPack "/out" itemsPack none "TS").2.success = true ∧
    fsLookup (ZipPacker.pack_batch fsPack "/out" itemsPack none "TS").1
      "/out/Batch_Output_TS.zip" =
      some (.zip [("a.html", .text "A"), ("assets_a/i.png", .png 1 1)]) ∧
    ZipPacker.pack_batch fsPack "/out" [] none "TS" =
      (fsPack, { zip_file := none, files_packed := [], success := false,
                 error := some "No items to pack" }) := by
  have h := (c8_pack_batch fsPack "/out" itemsPack none "TS").2.2
    (by decide) (by decide)
  exact ⟨h.1, (h.2.2.2.1).trans (by decide),
    (c8_pack_batch fsPack "/out" [] none "TS").1 rfl⟩

/-- C10: a non-empty item list in which no listed HTML file exists still
packs successfully: the archive is created on disk with zero entries,
`files_packed` is empty and `error` unset. -/
theorem c10_all_missing_succeeds (fs : FS) (out : String)
    (items : List (String × Option String)) (zn : Option String) (now : String)
    (hne : items ≠ [])
    (hmiss : ∀ it ∈ items, fsFileExists fs it.1 = false)
    (hw : fs.failWrites.find?
      (fun e => e.1 == out ++ "/" ++ zn.getD ("Batch_Output_" ++ now ++ ".zip")) = none) :
    (ZipPacker.pack_batch fs out items zn now).2.success = true ∧
    (ZipPacker.pack_batch fs out items zn now).2.files_packed = [] ∧
    (ZipPacker.pack_batch fs out items zn now).2.error = none ∧
    fsLookup (ZipPacker.pack_batch fs out items zn now).1
      (out ++ "/" ++ zn.getD ("Batch_Output_" ++ now ++ ".zip")) = some (.zip []) := by
  have hent : ZipPacker.batchEntries (fsMkdir fs out) items = [] :=
    batchEntries_nil_of_missing _ items
      (fun it hit => by rw [fsFileExists_mkdir]; exact hmiss it hit)
  rw [pack_batch_ok fs out items zn now hne hw, hent]
  refine ⟨rfl, rfl, rfl, ?_⟩
  unfold fsLookup
  simp [List.find?_cons, hent]

/-- Witness for C10: two items, both HTML files missing. -/
theorem c10_all_missing_succeeds_witness :
    (ZipPacker.pack_batch { files := [] } "/out"
      [("/out/a.html", none), ("/out/b.html", some "/out/assets_b")] none "TS").2.success
        = true ∧
    fsLookup (ZipPacker.pack_batch { files := [] } "/out"
      [("/out/a.html", none), ("/out/b.html", some "/out/assets_b")] none "TS").1
      "/out/Batch_Output_TS.zip" = some (.zip []) := by
  have h := c10_all_missing_succeeds { files := [] } "/out"
    [("/out/a.html", none), ("/out/b.html", some "/out/assets_b")] none "TS"
    (by decide) (by decide) (by decide)
  exact ⟨h.1, h.2.2.2.trans (by decide) |>.trans rfl⟩

/-! ## Claim C6 -/

/-- C6: behaviour of `_get_unique_filename` under the per-render
used-filename table.  (1) The first occurrence of a filename is returned
unchanged and recorded.  (2) A subsequent occurrence gets a suffix
appended to the stem: for real files the first 8 hex characters of the
MD5 hash of the source file's bytes, falling back to the MD5 of the path
string when reading fails; for placeholders (no source path) a 4-digit
zero-padded occurrence counter.  (3) The outcome depends only on the
filename, the table and the source file's bytes, so two runs over
unchanged content produce identical disambiguated names. -/
theorem c6_unique_filename (fs : FS) (filename : String)
    (source_path : Option String) (used : List (String × Nat)) :
    (HtmlRenderer.usedLookup used filename = none →
      HtmlRenderer.get_unique_filename fs filename source_path used =
        (filename, HtmlRenderer.usedSet used filename 1)) ∧
    (∀ n, HtmlRenderer.usedLookup used filename = some n →
      (∀ p bs, source_path = some p → fsReadBytes fs p = some bs →
        HtmlRenderer.get_unique_filename fs filename source_path used =
          (pyStem filename ++ "_" ++ String.mk ((md5hex bs).toList.take 8) ++
            pySuffix filename,
           HtmlRenderer.usedSet used filename (n + 1))) ∧
      (∀ p, source_path = some p → fsReadBytes fs p = none →
        HtmlRenderer.get_unique_filename fs filename source_path used =
          (pyStem filename ++ "_" ++ String.mk ((md5hex (utf8Bytes p)).toList.take 8) ++
            pySuffix filename,
           HtmlRenderer.usedSet used filename (n + 1))) ∧
      (source_path = none →
        HtmlRenderer.get_unique_filename fs filename source_path used =
          (pyStem filename ++ "_" ++ HtmlRenderer.pad4 n ++ pySuffix filename,
           HtmlRenderer.usedSet used filename (n + 1)))) ∧
    (∀ fs' : FS, (∀ p, source_path = some p → fsReadBytes fs p = fsReadBytes fs' p) →
      HtmlRenderer.get_unique_filename fs filename source_path used =
        HtmlRenderer.get_unique_filename fs' filename source_path used) := by
  refine ⟨?_, ?_, ?_⟩
  · intro h
    unfold HtmlRenderer.get_unique_filename
    simp only [h]
  · intro n hn
    refine ⟨?_, ?_, ?_⟩
    · intro p bs hp hb
      unfold HtmlRenderer.get_unique_filename
      simp only [hn, hp, hb]
    · intro p hp hb
      unfold HtmlRenderer.get_unique_filename
      simp only [hn, hp, hb]
    · intro hp
      unfold HtmlRenderer.get_unique_filename
      simp only [hn, hp]
  · intro fs' hsame
    unfold HtmlRenderer.get_unique_filename
    cases hn : HtmlRenderer.usedLookup used filename with
    | none => simp only [hn]
    | some n =>
      simp only [hn]
      cases hp : source_path with
      | none => simp only [hp]
      | some p =>
        simp only [hp]
        rw [hsame p hp]

set_option maxRecDepth 400000 in
/-- Witness for C6: first occurrence kept as-is; hash suffix for a real
file (the stored bytes spell `hi` and `md5("hi")` starts `49f68a5c`);
counter suffix for a placeholder; and independence from filesystem
changes that leave the source bytes alone. -/
theorem c6_unique_filename_witness :
    HtmlRenderer.get_unique_filename fsHash "new.png" (some "/in/img.png") [] =
      ("new.png", [("new.png", 1)]) ∧
    HtmlRenderer.get_unique_filename fsHash "img.png" (some "/in/img.png")
      [("img.png", 1)] = ("img_49f68a5c.png", [("img.png", 2)]) ∧
    HtmlRenderer.get_unique_filename fsHash "placeholder_x.png" none
      [("placeholder_x.png", 1)] =
      ("placeholder_x_0001.png", [("placeholder_x.png", 2)]) ∧
    HtmlRenderer.get_unique_filename fsHash "img.png" (some "/in/img.png")
      [("img.png", 1)] =
      HtmlRenderer.get_unique_filename
        { files := [("/in/img.png", .bytes [104, 105]), ("/other", .text "y")] }
        "img.png" (some "/in/img.png") [("img.png", 1)] := by
  refine ⟨?_, ?_, ?_, ?_⟩
  · exact (c6_unique_filename fsHash "new.png" (some "/in/img.png") []).1 rfl
  · have h := ((c6_unique_filename fsHash "img.png" (some "/in/img.png")
      [("img.png", 1)]).2.1 1 rfl).1 "/in/img.png" [104, 105] rfl rfl
    rw [h]
    decide
  · have h := ((c6_unique_filename fsHash "placeholder_x.png" none
      [("placeholder_x.png", 1)]).2.1 1 rfl).2.2 rfl
    rw [h]
    decide
  · exact (c6_unique_filename fsHash "img.png" (some "/in/img.png")
      [("img.png", 1)]).2.2
      { files := [("/in/img.png", .bytes [104, 105]), ("/other", .text "y")] }
      (fun p hp => by cases hp; rfl)

/-- Witness for C5: a document without local images creates no assets
directory; one with a (missing) local image gets `assets_dir` set and the
directory created. -/
theorem c5_assets_dir_iff_witness :
    ((HtmlRenderer.render { files := [] } updId
        { html := "<p>x</p>", source_file := some "/in/a.md" }
        "/out" "" none "en").2.assets_dir = none ∧
     (HtmlRenderer.render { files := [] } updId
        { html := "<p>x</p>", source_file := some "/in/a.md" }
        "/out" "" none "en").1.dirs = (fsMkdir { files := [] } "/out").dirs) ∧
    ((HtmlRenderer.render { files := [] } updId prOneImg "/out" "" none "en").2.assets_dir =
        some (assetsDirPath prOneImg "/out") ∧
     ((HtmlRenderer.render { files := [] } updId prOneImg "/out" "" none "en").1.dirs.contains
        (assetsDirPath prOneImg "/out")) = true) :=
  ⟨(c5_assets_dir_iff { files := [] } updId
      { html := "<p>x</p>", source_file := some "/in/a.md" }
      "/out" "" none "en").2 rfl,
   (c5_assets_dir_iff { files := [] } updId prOneImg "/out" "" none "en").1.mpr
      (by decide)⟩

end MarkPigeon
